import Mathlib

/-!
Verification of the ABlockOfficial/Blockchain transaction-script validation
engine: a shallow embedding of the script interpreter
(`src/utils/script_utils.rs`), the opcode handlers
(`src/script/interface_ops.rs`), the transaction validator (`tx_is_valid`)
and the compact transaction-hash codec (`src/primitives/transaction.rs`),
together with theorems settling the specification's claims about them.

Rust `Vec` stacks are modelled as Lean lists with the TOP of the stack at the
HEAD of the list (`push` = cons, `pop` = uncons, `last()` = `head?`).
Machine integers (`usize`/`u64`) are modelled as `Nat` with explicit bound
checks where the source uses checked arithmetic.  Rust panics (`unwrap()` on
`None`, `panic!`) are modelled as a distinct `panic` outcome, separate from a
handler returning `false`.

Items not present under `src/` (constants.rs, primitives/asset.rs,
script/mod.rs, script/lang.rs, utils/transaction_utils.rs, the crypto
facade, and the few `interface_ops` entry points that `interpret_script`
references but that are missing from the provided `interface_ops.rs`) are
modelled from the specification; each such definition carries a doc comment
starting with "Modelled from the spec:".
-/

namespace Blockchain

/-! ## Constants (constants.rs is not under src/; values from the spec) -/

/-- Modelled from the spec: `MAX_SCRIPT_SIZE` (10,000 encoded bytes). -/
def MAX_SCRIPT_SIZE : Nat := 10000

/-- Modelled from the spec: `MAX_OPS_PER_SCRIPT` (201 opcodes). -/
def MAX_OPS_PER_SCRIPT : Nat := 201

/-- Modelled from the spec: `MAX_STACK_SIZE` (1,000 total entries). -/
def MAX_STACK_SIZE : Nat := 1000

/-- Modelled from the spec: `MAX_SCRIPT_ITEM_SIZE` (520 bytes per push). -/
def MAX_SCRIPT_ITEM_SIZE : Nat := 520

/-- Modelled from the spec: `MAX_SCRIPT_ELEMENT_SIZE`, the OP_CAT result
limit (520 bytes, the byte-string item size limit). -/
def MAX_SCRIPT_ELEMENT_SIZE : Nat := 520

/-- Ed25519 signature length in bytes (crypto facade, not under src/). -/
def ED25519_SIGNATURE_LEN : Nat := 64

/-- Ed25519 public key length in bytes (crypto facade, not under src/). -/
def ED25519_PUBLIC_KEY_LEN : Nat := 32

/-- The source's `ZERO` constant. -/
def ZERO : Nat := 0

/-- The source's `ONE` constant. -/
def ONE : Nat := 1

/-- `usize::BITS as usize / EIGHT` on the 64-bit target: the encoded size of
a `Num` script entry. -/
def NUM_ENTRY_LEN : Nat := 8

/-- Largest value of the 64-bit `usize` type. -/
def USIZE_MAX : Nat := 2 ^ 64 - 1

/-- Modelled from the spec: the `V0` network-version tag (numeric value is
opaque to the modelled code). -/
def NETWORK_VERSION_V0 : Nat := 0

/-- Modelled from the spec: the `TEMP` network-version tag (numeric value is
opaque to the modelled code). -/
def NETWORK_VERSION_TEMP : Nat := 1

/-! ## Script model (script/mod.rs and script/lang.rs are not under src/) -/

/-- Modelled from the spec: the opcode enumeration of §4.C.  The enum itself
is declared in script/mod.rs which is not under src/; the constructor set is
the spec's list, which covers every opcode named by `interpret_script`. -/
inductive OpCodes where
  | OP_0 | OP_1 | OP_2 | OP_3 | OP_4 | OP_5 | OP_6 | OP_7 | OP_8
  | OP_9 | OP_10 | OP_11 | OP_12 | OP_13 | OP_14 | OP_15 | OP_16
  | OP_NOP | OP_VERIFY | OP_RETURN
  | OP_TOALTSTACK | OP_FROMALTSTACK
  | OP_2DROP | OP_2DUP | OP_3DUP | OP_2OVER | OP_2ROT | OP_2SWAP
  | OP_IFDUP | OP_DEPTH | OP_DROP | OP_DUP | OP_NIP | OP_OVER
  | OP_PICK | OP_ROLL | OP_ROT | OP_SWAP | OP_TUCK
  | OP_CAT | OP_SUBSTR | OP_LEFT | OP_RIGHT | OP_SIZE
  | OP_INVERT | OP_AND | OP_OR | OP_XOR | OP_EQUAL | OP_EQUALVERIFY
  | OP_1ADD | OP_1SUB | OP_2MUL | OP_2DIV | OP_NOT | OP_0NOTEQUAL
  | OP_ADD | OP_SUB | OP_MUL | OP_DIV | OP_MOD | OP_LSHIFT | OP_RSHIFT
  | OP_BOOLAND | OP_BOOLOR | OP_NUMEQUAL | OP_NUMEQUALVERIFY
  | OP_NUMNOTEQUAL | OP_LESSTHAN | OP_GREATERTHAN
  | OP_LESSTHANOREQUAL | OP_GREATERTHANOREQUAL | OP_MIN | OP_MAX
  | OP_WITHIN
  | OP_SHA3 | OP_HASH256 | OP_HASH256V0 | OP_HASH256TEMP
  | OP_CHECKSIG | OP_CHECKSIGVERIFY | OP_CHECKMULTISIG
  | OP_CHECKMULTISIGVERIFY
  | OP_CREATE
deriving DecidableEq

/-- The tagged stack-entry variant.  Opaque Ed25519 signatures and public
keys are modelled as `Nat` tokens; `Bytes`/`PubKeyHash` strings use
`String.length` for the source's byte length (all strings of interest are
ASCII). -/
inductive StackEntry where
  | Op (code : OpCodes)
  | Signature (sig : Nat)
  | PubKey (pk : Nat)
  | PubKeyHash (s : String)
  | Num (n : Nat)
  | Bytes (s : String)
deriving DecidableEq

/-- A script: an ordered sequence of stack entries, first entry executed
first (`Script` from script/lang.rs, a struct wrapping `stack: Vec`). -/
structure Script where
  stack : List StackEntry
deriving DecidableEq

/-- The externally provided pure cryptographic and encoding primitives that
the engine consumes (crypto facade and utils/transaction_utils.rs, neither
under src/).  The engine is parametric in them. -/
structure Crypto where
  /-- `sha3_256` digest, hex encoded, of a byte string. -/
  sha3_256_hex : String → String
  /-- `sign_ed25519::verify_detached sig msg pk`. -/
  verify_detached : Nat → String → Nat → Bool
  /-- Modelled from the spec: `construct_address_for(pubkey, version)` from
  utils/transaction_utils.rs (not under src/). -/
  construct_address_for : Nat → Option Nat → String
  /-- Modelled from the spec: `construct_p2sh_address(script)` from
  utils/transaction_utils.rs (not under src/). -/
  construct_p2sh_address : Script → String
  /-- Modelled from the spec: `construct_tx_in_signable_hash(outpoint)` from
  utils/transaction_utils.rs (not under src/). -/
  construct_tx_in_signable_hash : String → Int → String

/-- Result of one opcode handler on the main stack: the handler panicked,
returned `false`, or returned `true` leaving the given stack.  (When a Rust
handler mutates the stack and then returns `false`, the mutation is
unobservable because the interpreter aborts, so `fail` carries no stack.) -/
inductive OpResult where
  | panic
  | fail
  | ok (stack : List StackEntry)
deriving DecidableEq

/-- Outcome of executing one entry, or a whole entry sequence, on the pair
of stacks. -/
inductive RunOut where
  | panic
  | fail
  | done (stack : List StackEntry) (alt : List StackEntry)
deriving DecidableEq

/-! ## Opcode handlers from script/interface_ops.rs -/

/-- `op_toaltstack`: moves the top of the main stack to the alt stack;
`None` models returning `false`. -/
def op_toaltstack (stack alt : List StackEntry) :
    Option (List StackEntry × List StackEntry) :=
  match stack with
  | [] => none
  | x :: rest => some (rest, x :: alt)

/-- `op_fromaltstack`: moves the top of the alt stack to the main stack. -/
def op_fromaltstack (stack alt : List StackEntry) :
    Option (List StackEntry × List StackEntry) :=
  match alt with
  | [] => none
  | x :: rest => some (x :: stack, rest)

/-- `op_2drop`: removes the top two items. -/
def op_2drop (stack : List StackEntry) : OpResult :=
  match stack with
  | _ :: _ :: rest => .ok rest
  | _ => .fail

/-- `op_2dup`: duplicates the top two items. -/
def op_2dup (stack : List StackEntry) : OpResult :=
  match stack with
  | x2 :: x1 :: rest => .ok (x2 :: x1 :: x2 :: x1 :: rest)
  | _ => .fail

/-- `op_3dup`: duplicates the top three items. -/
def op_3dup (stack : List StackEntry) : OpResult :=
  match stack with
  | x3 :: x2 :: x1 :: rest => .ok (x3 :: x2 :: x1 :: x3 :: x2 :: x1 :: rest)
  | _ => .fail

/-- `op_2over`: copies the second-to-top pair to the top. -/
def op_2over (stack : List StackEntry) : OpResult :=
  match stack with
  | x4 :: x3 :: x2 :: x1 :: rest => .ok (x2 :: x1 :: x4 :: x3 :: x2 :: x1 :: rest)
  | _ => .fail

/-- `op_2rot`: moves the third-to-top pair to the top. -/
def op_2rot (stack : List StackEntry) : OpResult :=
  match stack with
  | x6 :: x5 :: x4 :: x3 :: x2 :: x1 :: rest =>
      .ok (x2 :: x1 :: x6 :: x5 :: x4 :: x3 :: rest)
  | _ => .fail

/-- `op_2swap`: swaps the top two pairs. -/
def op_2swap (stack : List StackEntry) : OpResult :=
  match stack with
  | x4 :: x3 :: x2 :: x1 :: rest => .ok (x2 :: x1 :: x4 :: x3 :: rest)
  | _ => .fail

/-- `op_ifdup`: duplicates the top item if it is not `Num(ZERO)`. -/
def op_ifdup (stack : List StackEntry) : OpResult :=
  match stack with
  | [] => .fail
  | x :: rest => if x ≠ StackEntry.Num ZERO then .ok (x :: x :: rest) else .ok (x :: rest)

/-- `op_depth`: pushes the stack size. -/
def op_depth (stack : List StackEntry) : OpResult :=
  .ok (.Num stack.length :: stack)

/-- `op_drop`: removes the top item. -/
def op_drop (stack : List StackEntry) : OpResult :=
  match stack with
  | [] => .fail
  | _ :: rest => .ok rest

/-- `op_dup`: duplicates the top item. -/
def op_dup (stack : List StackEntry) : OpResult :=
  match stack with
  | [] => .fail
  | x :: rest => .ok (x :: x :: rest)

/-- `op_nip`: removes the second-to-top item. -/
def op_nip (stack : List StackEntry) : OpResult :=
  match stack with
  | x2 :: _ :: rest => .ok (x2 :: rest)
  | _ => .fail

/-- `op_over`: copies the second-to-top item to the top. -/
def op_over (stack : List StackEntry) : OpResult :=
  match stack with
  | x2 :: x1 :: rest => .ok (x1 :: x2 :: x1 :: rest)
  | _ => .fail

/-- `op_pick`: pops `n`, fails if `n ≥ depth`, copies the `(n+1)`-th-to-top
item to the top. -/
def op_pick (stack : List StackEntry) : OpResult :=
  match stack with
  | _ :: _ :: _ =>
    match stack with
    | StackEntry.Num n :: rest =>
      if h : n < rest.length then .ok (rest.get ⟨n, h⟩ :: rest) else .fail
    | _ => .fail
  | _ => .fail

/-- `op_roll`: pops `n`, fails if `n ≥ depth`, moves the `(n+1)`-th-to-top
item to the top. -/
def op_roll (stack : List StackEntry) : OpResult :=
  match stack with
  | _ :: _ :: _ =>
    match stack with
    | StackEntry.Num n :: rest =>
      if h : n < rest.length then .ok (rest.get ⟨n, h⟩ :: rest.eraseIdx n) else .fail
    | _ => .fail
  | _ => .fail

/-- `op_rot`: moves the third-to-top item to the top. -/
def op_rot (stack : List StackEntry) : OpResult :=
  match stack with
  | x3 :: x2 :: x1 :: rest => .ok (x1 :: x3 :: x2 :: rest)
  | _ => .fail

/-- `op_swap`: swaps the top two items. -/
def op_swap (stack : List StackEntry) : OpResult :=
  match stack with
  | x2 :: x1 :: rest => .ok (x1 :: x2 :: rest)
  | _ => .fail

/-- `op_tuck`: copies the top item below the second-to-top item. -/
def op_tuck (stack : List StackEntry) : OpResult :=
  match stack with
  | x2 :: x1 :: rest => .ok (x2 :: x1 :: x2 :: rest)
  | _ => .fail

/-- `op_cat`: pops two byte strings and pushes their concatenation; fails if
either popped item is not `Bytes` or the combined length exceeds
`MAX_SCRIPT_ELEMENT_SIZE`. -/
def op_cat (stack : List StackEntry) : OpResult :=
  match stack with
  | _ :: _ :: _ =>
    match stack with
    | StackEntry.Bytes s2 :: StackEntry.Bytes s1 :: rest =>
      if s1.length + s2.length > MAX_SCRIPT_ELEMENT_SIZE then .fail
      else .ok (.Bytes (s1 ++ s2) :: rest)
    | _ => .fail
  | _ => .fail

/-- `op_size`: pushes the byte length of the top item, which must be
`Bytes` (the item itself is not popped). -/
def op_size (stack : List StackEntry) : OpResult :=
  match stack with
  | StackEntry.Bytes s :: rest => .ok (.Num s.length :: .Bytes s :: rest)
  | _ => .fail

/-- `op_equal`: pops two items and pushes `Num(ONE)` if they are equal,
`Num(ZERO)` otherwise. -/
def op_equal (stack : List StackEntry) : OpResult :=
  match stack with
  | x2 :: x1 :: rest =>
      .ok ((if x1 = x2 then StackEntry.Num ONE else StackEntry.Num ZERO) :: rest)
  | _ => .fail

/-- `op_equalverify`: pops two items; fails unless they are equal. -/
def op_equalverify (stack : List StackEntry) : OpResult :=
  match stack with
  | x2 :: x1 :: rest => if x1 ≠ x2 then .fail else .ok rest
  | _ => .fail

/-- `usize::checked_add` on the 64-bit target. -/
def checked_add (n1 n2 : Nat) : Option Nat :=
  if n1 + n2 ≤ USIZE_MAX then some (n1 + n2) else none

/-- `usize::checked_sub`. -/
def checked_sub (n1 n2 : Nat) : Option Nat :=
  if n2 ≤ n1 then some (n1 - n2) else none

/-- `op_1add`: adds `ONE` to the top number, failing on overflow. -/
def op_1add (stack : List StackEntry) : OpResult :=
  match stack with
  | StackEntry.Num n :: rest =>
    match checked_add n ONE with
    | some m => .ok (.Num m :: rest)
    | none => .fail
  | _ :: _ => .fail
  | [] => .fail

/-- `op_1sub`: subtracts `ONE` from the top number, failing on underflow. -/
def op_1sub (stack : List StackEntry) : OpResult :=
  match stack with
  | StackEntry.Num n :: rest =>
    match checked_sub n ONE with
    | some m => .ok (.Num m :: rest)
    | none => .fail
  | _ :: _ => .fail
  | [] => .fail

/-- `op_not`: replaces the top number with `ONE` if it is `ZERO`, with
`ZERO` otherwise. -/
def op_not (stack : List StackEntry) : OpResult :=
  match stack with
  | StackEntry.Num n :: rest =>
      .ok ((if n = ZERO then StackEntry.Num ONE else StackEntry.Num ZERO) :: rest)
  | _ :: _ => .fail
  | [] => .fail

/-- `op_0notequal`: replaces the top number with `ONE` if it is not `ZERO`,
with `ZERO` otherwise. -/
def op_0notequal (stack : List StackEntry) : OpResult :=
  match stack with
  | StackEntry.Num n :: rest =>
      .ok ((if n ≠ ZERO then StackEntry.Num ONE else StackEntry.Num ZERO) :: rest)
  | _ :: _ => .fail
  | [] => .fail

/-- `op_add`: pops two numbers and pushes their checked sum. -/
def op_add (stack : List StackEntry) : OpResult :=
  match stack with
  | StackEntry.Num n2 :: StackEntry.Num n1 :: rest =>
    match checked_add n1 n2 with
    | some m => .ok (.Num m :: rest)
    | none => .fail
  | _ :: _ :: _ => .fail
  | _ => .fail

/-- `op_sub`: pops two numbers and pushes their checked difference. -/
def op_sub (stack : List StackEntry) : OpResult :=
  match stack with
  | StackEntry.Num n2 :: StackEntry.Num n1 :: rest =>
    match checked_sub n1 n2 with
    | some m => .ok (.Num m :: rest)
    | none => .fail
  | _ :: _ :: _ => .fail
  | _ => .fail

/-- `op_booland`: pops two numbers and pushes `ONE` if both are non-`ZERO`,
else `ZERO`. -/
def op_booland (stack : List StackEntry) : OpResult :=
  match stack with
  | StackEntry.Num n2 :: StackEntry.Num n1 :: rest =>
      .ok ((if n1 ≠ ZERO ∧ n2 ≠ ZERO then StackEntry.Num ONE else StackEntry.Num ZERO) :: rest)
  | _ :: _ :: _ => .fail
  | _ => .fail

/-- `op_boolor`: pops two numbers and pushes `ONE` if either is non-`ZERO`,
else `ZERO`. -/
def op_boolor (stack : List StackEntry) : OpResult :=
  match stack with
  | StackEntry.Num n2 :: StackEntry.Num n1 :: rest =>
      .ok ((if n1 ≠ ZERO ∨ n2 ≠ ZERO then StackEntry.Num ONE else StackEntry.Num ZERO) :: rest)
  | _ :: _ :: _ => .fail
  | _ => .fail

/-- `op_numequal`: pops two numbers and pushes `ONE` if they are equal,
else `ZERO`. -/
def op_numequal (stack : List StackEntry) : OpResult :=
  match stack with
  | StackEntry.Num n2 :: StackEntry.Num n1 :: rest =>
      .ok ((if n1 = n2 then StackEntry.Num ONE else StackEntry.Num ZERO) :: rest)
  | _ :: _ :: _ => .fail
  | _ => .fail

/-- `op_numequalverify`: pops two numbers; fails unless they are equal. -/
def op_numequalverify (stack : List StackEntry) : OpResult :=
  match stack with
  | StackEntry.Num n2 :: StackEntry.Num n1 :: rest =>
      if n1 ≠ n2 then .fail else .ok rest
  | _ :: _ :: _ => .fail
  | _ => .fail

/-- `op_numnotequal`: pops two numbers and pushes `ONE` if they differ,
else `ZERO`. -/
def op_numnotequal (stack : List StackEntry) : OpResult :=
  match stack with
  | StackEntry.Num n2 :: StackEntry.Num n1 :: rest =>
      .ok ((if n1 ≠ n2 then StackEntry.Num ONE else StackEntry.Num ZERO) :: rest)
  | _ :: _ :: _ => .fail
  | _ => .fail

/-- `op_lessthan`: pops `n2` (top) and `n1` and pushes `ONE` if `n1 < n2`,
else `ZERO`. -/
def op_lessthan (stack : List StackEntry) : OpResult :=
  match stack with
  | StackEntry.Num n2 :: StackEntry.Num n1 :: rest =>
      .ok ((if n1 < n2 then StackEntry.Num ONE else StackEntry.Num ZERO) :: rest)
  | _ :: _ :: _ => .fail
  | _ => .fail

/-- `op_greaterthan`: pops `n2` (top) and `n1` and pushes `ONE` if
`n1 > n2`, else `ZERO`. -/
def op_greaterthan (stack : List StackEntry) : OpResult :=
  match stack with
  | StackEntry.Num n2 :: StackEntry.Num n1 :: rest =>
      .ok ((if n1 > n2 then StackEntry.Num ONE else StackEntry.Num ZERO) :: rest)
  | _ :: _ :: _ => .fail
  | _ => .fail

/-- `op_lessthanorequal`: pushes `ONE` if `n1 ≤ n2`, else `ZERO`. -/
def op_lessthanorequal (stack : List StackEntry) : OpResult :=
  match stack with
  | StackEntry.Num n2 :: StackEntry.Num n1 :: rest =>
      .ok ((if n1 ≤ n2 then StackEntry.Num ONE else StackEntry.Num ZERO) :: rest)
  | _ :: _ :: _ => .fail
  | _ => .fail

/-- `op_greaterthanorequal`: pushes `ONE` if `n1 ≥ n2`, else `ZERO`. -/
def op_greaterthanorequal (stack : List StackEntry) : OpResult :=
  match stack with
  | StackEntry.Num n2 :: StackEntry.Num n1 :: rest =>
      .ok ((if n1 ≥ n2 then StackEntry.Num ONE else StackEntry.Num ZERO) :: rest)
  | _ :: _ :: _ => .fail
  | _ => .fail

/-- `op_min`: pops two numbers and pushes the minimum. -/
def op_min (stack : List StackEntry) : OpResult :=
  match stack with
  | StackEntry.Num n2 :: StackEntry.Num n1 :: rest => .ok (.Num (min n1 n2) :: rest)
  | _ :: _ :: _ => .fail
  | _ => .fail

/-- `op_max`: pops two numbers and pushes the maximum. -/
def op_max (stack : List StackEntry) : OpResult :=
  match stack with
  | StackEntry.Num n2 :: StackEntry.Num n1 :: rest => .ok (.Num (max n1 n2) :: rest)
  | _ :: _ :: _ => .fail
  | _ => .fail

/-- `op_within`: pops `n3` (top), `n2`, `n1` and pushes `ONE` if
`n1 ≥ n2 ∧ n1 < n3`, else `ZERO`. -/
def op_within (stack : List StackEntry) : OpResult :=
  match stack with
  | StackEntry.Num n3 :: StackEntry.Num n2 :: StackEntry.Num n1 :: rest =>
      .ok ((if n1 ≥ n2 ∧ n1 < n3 then StackEntry.Num ONE else StackEntry.Num ZERO) :: rest)
  | _ :: _ :: _ :: _ => .fail
  | _ => .fail

/-- `op_hash256` (the two-argument handler in interface_ops.rs, lines
1641-1652): `current_stack.pop().unwrap()` PANICS on an empty stack; a
non-`PubKey` top returns `false`; otherwise the derived address is pushed as
a `PubKeyHash`. -/
def op_hash256 (C : Crypto) (stack : List StackEntry)
    (address_version : Option Nat) : OpResult :=
  match stack with
  | [] => .panic
  | last_entry :: rest =>
    match last_entry with
    | StackEntry.PubKey v =>
        .ok (.PubKeyHash (C.construct_address_for v address_version) :: rest)
    | _ => .fail

/-- `op_checksig` (interface_ops.rs lines 1659-1681): pops `[pubkey,
signature, bytes]` from the top; each pop is `pop().unwrap()` followed by a
`panic!` on a type mismatch, so any stack not of that shape PANICS; a
failed `verify_detached` returns `false`. -/
def op_checksig (C : Crypto) (stack : List StackEntry) : OpResult :=
  match stack with
  | StackEntry.PubKey pub_key :: StackEntry.Signature sig :: StackEntry.Bytes check_data :: rest =>
      if ¬ C.verify_detached sig check_data pub_key then .fail else .ok rest
  | _ => .panic

/-- The `while let StackEntry::PubKey(_) = current_stack[len - 1]` loop of
`op_multisig`: pops consecutive public keys from the top; indexing an EMPTY
stack panics (`none`). -/
def popPubKeys : List StackEntry → Option (List Nat × List StackEntry)
  | [] => none
  | e :: rest =>
    match e with
    | StackEntry.PubKey pk =>
      match popPubKeys rest with
      | none => none
      | some (pks, rest1) => some (pk :: pks, rest1)
    | _ => some ([], e :: rest)

/-- The `while let StackEntry::Signature(_) = current_stack[len - 1]` loop
of `op_multisig`: pops consecutive signatures from the top; indexing an
EMPTY stack panics (`none`). -/
def popSignatures : List StackEntry → Option (List Nat × List StackEntry)
  | [] => none
  | e :: rest =>
    match e with
    | StackEntry.Signature sig =>
      match popSignatures rest with
      | none => none
      | some (sigs, rest1) => some (sig :: sigs, rest1)
    | _ => some ([], e :: rest)

/-- The counting loop of `match_on_multisig_to_pubkey`: for each signature
in order, scan the public keys in order and stop at the first that
verifies (`break 'inner`), incrementing the counter at most once per
signature occurrence. -/
def multisigMatches (C : Crypto) (check_data : String) (pub_keys : List Nat) :
    List Nat → Nat → Nat
  | [], counter => counter
  | sig :: sigs, counter =>
    if pub_keys.any (fun pub_key => C.verify_detached sig check_data pub_key)
    then multisigMatches C check_data pub_keys sigs (counter + 1)
    else multisigMatches C check_data pub_keys sigs counter

/-- `match_on_multisig_to_pubkey` (interface_ops.rs lines 1778-1796):
pairwise validation of signatures against public keys; succeeds when the
counter reaches `m`. -/
def match_on_multisig_to_pubkey (C : Crypto) (check_data : String)
    (signatures : List Nat) (pub_keys : List Nat) (m : Nat) : Bool :=
  decide (multisigMatches C check_data pub_keys signatures 0 ≥ m)

/-- `op_multisig` (interface_ops.rs lines 1717-1768): pops `n`
(`pop().unwrap()` + `panic!` on a non-`Num`), pops consecutive public keys
(indexing an empty stack panics), checks `pub_keys.len() < n`, pops `m`,
checks `m > n || m > pub_keys.len()`, pops consecutive signatures, pops the
check data bytes, and finally runs `match_on_multisig_to_pubkey`. -/
def op_multisig (C : Crypto) (stack : List StackEntry) : OpResult :=
  match stack with
  | [] => .panic
  | e :: rest =>
    match e with
    | StackEntry.Num n =>
      match popPubKeys rest with
      | none => .panic
      | some (pub_keys, rest1) =>
        if pub_keys.length < n then .fail
        else
          match rest1 with
          | [] => .panic
          | e2 :: rest2 =>
            match e2 with
            | StackEntry.Num m =>
              if m > n ∨ m > pub_keys.length then .fail
              else
                match popSignatures rest2 with
                | none => .panic
                | some (signatures, rest3) =>
                  match rest3 with
                  | [] => .panic
                  | e4 :: rest4 =>
                    match e4 with
                    | StackEntry.Bytes check_data =>
                      if ¬ match_on_multisig_to_pubkey C check_data signatures pub_keys m
                      then .fail else .ok rest4
                    | _ => .panic
            | _ => .panic
    | _ => .panic

/-! ## Opcode entry points referenced by `interpret_script` but missing from
the provided interface_ops.rs; modelled from the spec. -/

/-- Modelled from the spec: the push-constant opcodes `OP_0`..`OP_16` push
the corresponding `Num` (interface_ops versions not under src/). -/
def op_num_const (n : Nat) (stack : List StackEntry) : OpResult :=
  .ok (.Num n :: stack)

/-- Modelled from the spec: `op_nop` does nothing (interface_ops version
not under src/). -/
def op_nop (stack : List StackEntry) : OpResult := .ok stack

/-- Modelled from the spec: `op_verify` pops the top item and fails if it
is `Num(ZERO)` or the stack is empty (interface_ops version not under
src/). -/
def op_verify (stack : List StackEntry) : OpResult :=
  match stack with
  | [] => .fail
  | x :: rest => if x = StackEntry.Num ZERO then .fail else .ok rest

/-- Modelled from the spec: `op_return` always fails the script
(interface_ops version not under src/). -/
def op_return (_stack : List StackEntry) : OpResult := .fail

/-- Modelled from the spec: `op_sha3` replaces the top byte string with its
SHA3-256 digest, hex encoded (interface_ops version not under src/). -/
def op_sha3 (C : Crypto) (stack : List StackEntry) : OpResult :=
  match stack with
  | StackEntry.Bytes s :: rest => .ok (.Bytes (C.sha3_256_hex s) :: rest)
  | _ => .fail

/-- Modelled from the spec: the one-argument `op_hash256` that
`interpret_script` calls (not under src/) pops a `PubKey`, derives the
current-scheme address and pushes it as a `PubKeyHash`; fails otherwise. -/
def op_hash256_current (C : Crypto) (stack : List StackEntry) : OpResult :=
  match stack with
  | StackEntry.PubKey pk :: rest =>
      .ok (.PubKeyHash (C.construct_address_for pk none) :: rest)
  | _ => .fail

/-- Modelled from the spec: `op_hash256v0`, the `V0` address scheme variant
(not under src/). -/
def op_hash256v0 (C : Crypto) (stack : List StackEntry) : OpResult :=
  match stack with
  | StackEntry.PubKey pk :: rest =>
      .ok (.PubKeyHash (C.construct_address_for pk (some NETWORK_VERSION_V0)) :: rest)
  | _ => .fail

/-- Modelled from the spec: `op_hash256temp`, the `TEMP` address scheme
variant (not under src/). -/
def op_hash256temp (C : Crypto) (stack : List StackEntry) : OpResult :=
  match stack with
  | StackEntry.PubKey pk :: rest =>
      .ok (.PubKeyHash (C.construct_address_for pk (some NETWORK_VERSION_TEMP)) :: rest)
  | _ => .fail

/-- Modelled from the spec: `op_checksigverify` is `OP_CHECKSIG` followed by
an implicit verify; it fails on a malformed stack or a bad signature (not
under src/). -/
def op_checksigverify (C : Crypto) (stack : List StackEntry) : OpResult :=
  match stack with
  | StackEntry.PubKey pub_key :: StackEntry.Signature sig :: StackEntry.Bytes check_data :: rest =>
      if C.verify_detached sig check_data pub_key then .ok rest else .fail
  | _ => .fail

/-- Modelled from the spec: `op_checkmultisig` as called by
`interpret_script` (not under src/): pops `n`, then public keys, then `m`,
then signatures, then the check data; fails on a malformed stack, on too
few public keys, on `m > n`, or when fewer than `m` signatures verify. -/
def op_checkmultisig (C : Crypto) (stack : List StackEntry) : OpResult :=
  match stack with
  | StackEntry.Num n :: rest =>
    match popPubKeys rest with
    | none => .fail
    | some (pub_keys, rest1) =>
      if pub_keys.length < n then .fail
      else
        match rest1 with
        | StackEntry.Num m :: rest2 =>
          if m > n ∨ m > pub_keys.length then .fail
          else
            match popSignatures rest2 with
            | none => .fail
            | some (signatures, rest3) =>
              match rest3 with
              | StackEntry.Bytes check_data :: rest4 =>
                if match_on_multisig_to_pubkey C check_data signatures pub_keys m
                then .ok rest4 else .fail
              | _ => .fail
        | _ => .fail
  | _ => .fail

/-- Modelled from the spec: `op_checkmultisigverify` behaves as
`op_checkmultisig` with an implicit verify (not under src/). -/
def op_checkmultisigverify (C : Crypto) (stack : List StackEntry) : OpResult :=
  op_checkmultisig C stack

/-! ## The interpreter (utils/script_utils.rs) -/

/-- `is_valid_script`'s per-entry encoded size: opcode 1 byte, signature 64,
public key 32, bytes/pubkeyhash their string length, number
`usize::BITS / 8` bytes. -/
def entry_len : StackEntry → Nat
  | .Op _ => ONE
  | .Signature _ => ED25519_SIGNATURE_LEN
  | .PubKey _ => ED25519_PUBLIC_KEY_LEN
  | .PubKeyHash s => s.length
  | .Bytes s => s.length
  | .Num _ => NUM_ENTRY_LEN

/-- Total encoded script length accumulated by `is_valid_script`. -/
def script_len (script : Script) : Nat :=
  script.stack.foldl (fun acc e => acc + entry_len e) 0

/-- Opcode count accumulated by `is_valid_script`. -/
def script_ops_count (script : Script) : Nat :=
  script.stack.countP (fun e => match e with | .Op _ => true | _ => false)

/-- `is_valid_script`: the pre-flight check; rejects a script whose encoded
size exceeds `MAX_SCRIPT_SIZE` or whose opcode count exceeds
`MAX_OPS_PER_SCRIPT`. -/
def is_valid_script (script : Script) : Bool :=
  if script_len script > MAX_SCRIPT_SIZE then false
  else if script_ops_count script > MAX_OPS_PER_SCRIPT then false
  else true

/-- `is_valid_stack`: fails when the combined size of the two stacks
EXCEEDS `MAX_STACK_SIZE` (a strict `>` comparison). -/
def is_valid_stack (interpreter_stack interpreter_alt_stack : List StackEntry) : Bool :=
  if interpreter_stack.length + interpreter_alt_stack.length > MAX_STACK_SIZE
  then false else true

/-- `push_entry_to_stack` (script_utils.rs lines 276-290): `Op` entries may
not be pushed as data; `Bytes`/`PubKeyHash` entries longer than
`MAX_SCRIPT_ITEM_SIZE` are rejected. -/
def push_entry_to_stack (stack_entry : StackEntry)
    (interpreter_stack : List StackEntry) : OpResult :=
  match stack_entry with
  | .Op _ => .fail
  | .PubKeyHash s =>
      if s.length > MAX_SCRIPT_ITEM_SIZE then .fail
      else .ok (stack_entry :: interpreter_stack)
  | .Bytes s =>
      if s.length > MAX_SCRIPT_ITEM_SIZE then .fail
      else .ok (stack_entry :: interpreter_stack)
  | _ => .ok (stack_entry :: interpreter_stack)

/-- Lifts a single-stack handler result to a two-stack outcome. -/
def liftOp (r : OpResult) (alt : List StackEntry) : RunOut :=
  match r with
  | .panic => .panic
  | .fail => .fail
  | .ok stack => .done stack alt

/-- The opcode dispatch of `interpret_script` (script_utils.rs lines
309-541, the `StackEntry::Op(...)` arms): execute the named opcode, treat
`OP_CREATE` as `()` and every other non-dispatched opcode as an unknown
operation that fails the script. -/
def execOpcode (C : Crypto) (code : OpCodes) (stack alt : List StackEntry) : RunOut :=
  match code with
  | .OP_0 => liftOp (op_num_const 0 stack) alt
  | .OP_1 => liftOp (op_num_const 1 stack) alt
  | .OP_2 => liftOp (op_num_const 2 stack) alt
  | .OP_3 => liftOp (op_num_const 3 stack) alt
  | .OP_4 => liftOp (op_num_const 4 stack) alt
  | .OP_5 => liftOp (op_num_const 5 stack) alt
  | .OP_6 => liftOp (op_num_const 6 stack) alt
  | .OP_7 => liftOp (op_num_const 7 stack) alt
  | .OP_8 => liftOp (op_num_const 8 stack) alt
  | .OP_9 => liftOp (op_num_const 9 stack) alt
  | .OP_10 => liftOp (op_num_const 10 stack) alt
  | .OP_11 => liftOp (op_num_const 11 stack) alt
  | .OP_12 => liftOp (op_num_const 12 stack) alt
  | .OP_13 => liftOp (op_num_const 13 stack) alt
  | .OP_14 => liftOp (op_num_const 14 stack) alt
  | .OP_15 => liftOp (op_num_const 15 stack) alt
  | .OP_16 => liftOp (op_num_const 16 stack) alt
  | .OP_NOP => liftOp (op_nop stack) alt
  | .OP_VERIFY => liftOp (op_verify stack) alt
  | .OP_RETURN => liftOp (op_return stack) alt
  | .OP_TOALTSTACK =>
    match op_toaltstack stack alt with
    | none => .fail
    | some (s, a) => .done s a
  | .OP_FROMALTSTACK =>
    match op_fromaltstack stack alt with
    | none => .fail
    | some (s, a) => .done s a
  | .OP_2DROP => liftOp (op_2drop stack) alt
  | .OP_2DUP => liftOp (op_2dup stack) alt
  | .OP_3DUP => liftOp (op_3dup stack) alt
  | .OP_2OVER => liftOp (op_2over stack) alt
  | .OP_2ROT => liftOp (op_2rot stack) alt
  | .OP_2SWAP => liftOp (op_2swap stack) alt
  | .OP_IFDUP => liftOp (op_ifdup stack) alt
  | .OP_DEPTH => liftOp (op_depth stack) alt
  | .OP_DROP => liftOp (op_drop stack) alt
  | .OP_DUP => liftOp (op_dup stack) alt
  | .OP_NIP => liftOp (op_nip stack) alt
  | .OP_OVER => liftOp (op_over stack) alt
  | .OP_PICK => liftOp (op_pick stack) alt
  | .OP_ROLL => liftOp (op_roll stack) alt
  | .OP_ROT => liftOp (op_rot stack) alt
  | .OP_SWAP => liftOp (op_swap stack) alt
  | .OP_TUCK => liftOp (op_tuck stack) alt
  | .OP_SIZE => liftOp (op_size stack) alt
  | .OP_EQUAL => liftOp (op_equal stack) alt
  | .OP_EQUALVERIFY => liftOp (op_equalverify stack) alt
  | .OP_1ADD => liftOp (op_1add stack) alt
  | .OP_1SUB => liftOp (op_1sub stack) alt
  | .OP_NOT => liftOp (op_not stack) alt
  | .OP_0NOTEQUAL => liftOp (op_0notequal stack) alt
  | .OP_ADD => liftOp (op_add stack) alt
  | .OP_SUB => liftOp (op_sub stack) alt
  | .OP_BOOLAND => liftOp (op_booland stack) alt
  | .OP_BOOLOR => liftOp (op_boolor stack) alt
  | .OP_NUMEQUAL => liftOp (op_numequal stack) alt
  | .OP_NUMEQUALVERIFY => liftOp (op_numequalverify stack) alt
  | .OP_NUMNOTEQUAL => liftOp (op_numnotequal stack) alt
  | .OP_LESSTHAN => liftOp (op_lessthan stack) alt
  | .OP_GREATERTHAN => liftOp (op_greaterthan stack) alt
  | .OP_LESSTHANOREQUAL => liftOp (op_lessthanorequal stack) alt
  | .OP_GREATERTHANOREQUAL => liftOp (op_greaterthanorequal stack) alt
  | .OP_MIN => liftOp (op_min stack) alt
  | .OP_MAX => liftOp (op_max stack) alt
  | .OP_WITHIN => liftOp (op_within stack) alt
  | .OP_CREATE => .done stack alt
  | .OP_SHA3 => liftOp (op_sha3 C stack) alt
  | .OP_HASH256 => liftOp (op_hash256_current C stack) alt
  | .OP_HASH256V0 => liftOp (op_hash256v0 C stack) alt
  | .OP_HASH256TEMP => liftOp (op_hash256temp C stack) alt
  | .OP_CHECKSIG => liftOp (op_checksig C stack) alt
  | .OP_CHECKSIGVERIFY => liftOp (op_checksigverify C stack) alt
  | .OP_CHECKMULTISIG => liftOp (op_checkmultisig C stack) alt
  | .OP_CHECKMULTISIGVERIFY => liftOp (op_checkmultisigverify C stack) alt
  | .OP_CAT => .fail
  | .OP_SUBSTR => .fail
  | .OP_LEFT => .fail
  | .OP_RIGHT => .fail
  | .OP_INVERT => .fail
  | .OP_AND => .fail
  | .OP_OR => .fail
  | .OP_XOR => .fail
  | .OP_2MUL => .fail
  | .OP_2DIV => .fail
  | .OP_MUL => .fail
  | .OP_DIV => .fail
  | .OP_MOD => .fail
  | .OP_LSHIFT => .fail
  | .OP_RSHIFT => .fail

/-- One iteration of `interpret_script`'s dispatch match: opcodes go to
`execOpcode`, data entries are pushed via `push_entry_to_stack`. -/
def execEntry (C : Crypto) (stack_entry : StackEntry)
    (stack alt : List StackEntry) : RunOut :=
  match stack_entry with
  | .Op code => execOpcode C code stack alt
  | .Signature _ => liftOp (push_entry_to_stack stack_entry stack) alt
  | .PubKey _ => liftOp (push_entry_to_stack stack_entry stack) alt
  | .PubKeyHash _ => liftOp (push_entry_to_stack stack_entry stack) alt
  | .Num _ => liftOp (push_entry_to_stack stack_entry stack) alt
  | .Bytes _ => liftOp (push_entry_to_stack stack_entry stack) alt

/-- The main loop of `interpret_script`: before each entry the combined
stack size is checked by `is_valid_stack`; a handler returning `false`
aborts with overall failure (`test_for_return`). -/
def runEntries (C : Crypto) : List StackEntry → List StackEntry →
    List StackEntry → RunOut
  | [], stack, alt => .done stack alt
  | e :: rest, stack, alt =>
    if ¬ is_valid_stack stack alt then .fail
    else
      match execEntry C e stack alt with
      | .panic => .panic
      | .fail => .fail
      | .done s a => runEntries C rest s a

/-- `interpret_script` (script_utils.rs lines 297-548): pre-flight check,
the dispatch loop and the final success condition
`test_for_return && interpreter_stack.last().cloned() != Some(Num(ZERO))`.
`none` models a Rust panic escaping the interpreter. -/
def interpret_script (C : Crypto) (script : Script) : Option Bool :=
  if ¬ is_valid_script script then some false
  else
    match runEntries C script.stack [] [] with
    | .panic => none
    | .fail => some false
    | .done stack _ => some (stack.head? ≠ some (StackEntry.Num ZERO))

/-! ## Transaction data model (primitives/transaction.rs; the asset model of
primitives/asset.rs is not under src/ and is modelled from the spec) -/

/-- An outpoint: a transaction hash and an index `n` into its vout. -/
structure OutPoint where
  t_hash : String
  n : Int
deriving DecidableEq

/-- Modelled from the spec: the non-fungible `Item` asset
(primitives/asset.rs is not under src/): an amount, a data-reference
identity (`genesis_hash`, called `drs_tx_hash` at some call sites) and
optional metadata. -/
structure ItemAsset where
  amount : Nat
  genesis_hash : Option String
  metadata : Option String
deriving DecidableEq

/-- Modelled from the spec: the asset variant (primitives/asset.rs is not
under src/): fungible tokens or non-fungible items. -/
inductive Asset where
  | Token (amount : Nat)
  | Item (item : ItemAsset)
deriving DecidableEq

/-- Modelled from the spec: `Asset::is_receipt` — whether the asset is the
non-fungible (item/receipt) variant. -/
def Asset.is_receipt : Asset → Bool
  | .Item _ => true
  | _ => false

/-- Modelled from the spec: `Asset::get_drs_tx_hash` — the item's
data-reference identity, `none` for tokens. -/
def Asset.get_drs_tx_hash : Asset → Option String
  | .Item i => i.genesis_hash
  | _ => none

/-- Modelled from the spec: `Asset::get_metadata`. -/
def Asset.get_metadata : Asset → Option String
  | .Item i => i.metadata
  | _ => none

/-- The `Display` string of an `OutPoint`: `t_hash:<id>-n:<index>`. -/
def OutPoint.display (op : OutPoint) : String :=
  "t_hash:" ++ op.t_hash ++ "-n:" ++ toString op.n

/-- Modelled from the spec: `Asset::with_fixed_hash(outpoint)` rebinds the
genesis hash of an item whose stored hash was `None` to an identity derived
from the outpoint (primitives/asset.rs is not under src/; the textual
outpoint encoding stands in for the derived identity). -/
def Asset.with_fixed_hash (a : Asset) (outpoint : OutPoint) : Asset :=
  match a with
  | .Item i =>
    match i.genesis_hash with
    | none => .Item { i with genesis_hash := some outpoint.display }
    | some _ => a
  | _ => a

/-- Adds an amount to the entry of a key in an association-list map,
inserting the key if absent (`BTreeMap` accumulation). -/
def addToMap : List (String × Nat) → String → Nat → List (String × Nat)
  | [], k, v => [(k, v)]
  | (k1, v1) :: rest, k, v =>
    if k1 = k then (k1, v1 + v) :: rest else (k1, v1) :: addToMap rest k v

/-- Looks a key up in an association-list map. -/
def getAmount : List (String × Nat) → String → Option Nat
  | [], _ => none
  | (k1, v1) :: rest, k => if k1 = k then some v1 else getAmount rest k

/-- Modelled from the spec: `AssetValues` — a total-token counter plus a
map from genesis hash to item amount (primitives/asset.rs is not under
src/). -/
structure AssetValues where
  tokens : Nat
  items : List (String × Nat)
deriving DecidableEq

/-- The `Default::default()` accumulator: zero tokens, no items. -/
def AssetValues.default : AssetValues := ⟨0, []⟩

/-- Modelled from the spec: `AssetValues::update_add` accumulates tokens
into the counter and items into the per-genesis-hash map.  Items lacking a
genesis hash are illegal on-spends caught upstream; they accumulate under
the empty key here. -/
def AssetValues.update_add (av : AssetValues) (asset : Asset) : AssetValues :=
  match asset with
  | .Token amount => { av with tokens := av.tokens + amount }
  | .Item i => { av with items := addToMap av.items (i.genesis_hash.getD "") i.amount }

/-- Modelled from the spec: `AssetValues::is_equal` is strict — the token
counters match and the item maps agree on every key of either side. -/
def AssetValues.is_equal (a b : AssetValues) : Bool :=
  a.tokens == b.tokens
    && a.items.all (fun p => getAmount b.items p.1 == some p.2)
    && b.items.all (fun p => getAmount a.items p.1 == some p.2)

/-- A transaction input: the claimed previous output and the unlocking
script. -/
structure TxIn where
  previous_out : Option OutPoint
  script_signature : Script
deriving DecidableEq

/-- A transaction output. -/
structure TxOut where
  value : Asset
  locktime : Nat
  script_public_key : Option String
deriving DecidableEq

/-- The transaction container.  `DdeValues` (primitives/druid.rs, not under
src/) does not affect validation and is modelled opaquely. -/
structure Transaction where
  inputs : List TxIn
  outputs : List TxOut
  version : Nat
  fees : List TxOut
  druid_info : Option Unit
deriving DecidableEq

/-! ## The transaction validator (utils/script_utils.rs) -/

/-- `address_has_valid_length`: an address string has length 32 or 64. -/
def address_has_valid_length (address : String) : Bool :=
  address.length == 32 || address.length == 64

/-- `tx_has_valid_p2pkh_sig` (script_utils.rs lines 162-198): the script
must have the exact canonical P2PKH shape, its hash entry must match the
locking address, its bytes entry must match the outpoint hash, and the
script must interpret to true.  `none` models a Rust panic escaping from
`interpret_script`. -/
def tx_has_valid_p2pkh_sig (C : Crypto) (script : Script)
    (outpoint_hash tx_out_pub_key : String) : Option Bool :=
  match script.stack with
  | [.Bytes b, .Signature _, .PubKey _, .Op .OP_DUP, .Op hashop,
     .PubKeyHash h, .Op .OP_EQUALVERIFY, .Op .OP_CHECKSIG] =>
    if (hashop = .OP_HASH256 ∨ hashop = .OP_HASH256V0 ∨ hashop = .OP_HASH256TEMP)
        ∧ h = tx_out_pub_key ∧ b = outpoint_hash
    then interpret_script C script
    else some false
  | _ => some false

/-- `tx_has_valid_p2sh_script` (script_utils.rs lines 206-220): the
script's P2SH address must equal the locking address and the script must
interpret to true. -/
def tx_has_valid_p2sh_script (C : Crypto) (script : Script)
    (address : String) : Option Bool :=
  if C.construct_p2sh_address script = address
  then interpret_script C script
  else some false

/-- `tx_outs_are_valid` (script_utils.rs lines 91-108): every present
output address has valid length, and the accumulated outputs equal the
accumulated inputs. -/
def tx_outs_are_valid (tx_outs : List TxOut) (tx_ins_spent : AssetValues) : Bool :=
  if tx_outs.all (fun o => o.script_public_key.all address_has_valid_length)
  then (tx_outs.foldl (fun acc o => acc.update_add o.value)
          AssetValues.default).is_equal tx_ins_spent
  else false

/-- The per-input loop of `tx_is_valid` (script_utils.rs lines 49-77).
`tx_in.previous_out.as_ref().unwrap()` PANICS on a `None` previous out
(`none`); a missing UTXO entry, a missing locking key or a script failing
both the P2PKH and the P2SH check return overall `false` (`some none`);
otherwise the referenced asset is accumulated (`some (some acc)`). -/
def txInsLoop (C : Crypto) : List TxIn → (OutPoint → Option TxOut) →
    AssetValues → Option (Option AssetValues)
  | [], _, acc => some (some acc)
  | tx_in :: rest, is_in_utxo, acc =>
    match tx_in.previous_out with
    | none => none
    | some tx_out_point =>
      match is_in_utxo tx_out_point with
      | none => some none
      | some tx_out =>
        match tx_out.script_public_key with
        | none => some none
        | some pk =>
          let tx_out_hash :=
            C.construct_tx_in_signable_hash tx_out_point.t_hash tx_out_point.n
          match tx_has_valid_p2pkh_sig C tx_in.script_signature tx_out_hash pk with
          | none => none
          | some p2pkh_ok =>
            if p2pkh_ok then
              txInsLoop C rest is_in_utxo
                (acc.update_add (tx_out.value.with_fixed_hash tx_out_point))
            else
              match tx_has_valid_p2sh_script C tx_in.script_signature pk with
              | none => none
              | some p2sh_ok =>
                if p2sh_ok then
                  txInsLoop C rest is_in_utxo
                    (acc.update_add (tx_out.value.with_fixed_hash tx_out_point))
                else some none

/-- `tx_is_valid` (script_utils.rs lines 34-80): the on-spend item
pre-flight over the outputs, the per-input loop, and the final
`tx_outs_are_valid` balance check.  `none` models a Rust panic. -/
def tx_is_valid (C : Crypto) (tx : Transaction)
    (is_in_utxo : OutPoint → Option TxOut) : Option Bool :=
  if tx.outputs.any (fun out =>
      out.value.is_receipt
        && (out.value.get_drs_tx_hash.isNone || out.value.get_metadata.isSome))
  then some false
  else
    match txInsLoop C tx.inputs is_in_utxo AssetValues.default with
    | none => none
    | some none => some false
    | some (some tx_ins_spent) => some (tx_outs_are_valid tx.outputs tx_ins_spent)

/-- The input-side asset accumulation on its own: for each input, the
referenced unspent output's asset, with its genesis hash rebound to the
outpoint where it was `None`, added into the accumulator; `none` when an
input lacks a previous out or a UTXO entry. -/
def sumInsFrom : List TxIn → (OutPoint → Option TxOut) → AssetValues →
    Option AssetValues
  | [], _, acc => some acc
  | tx_in :: rest, is_in_utxo, acc =>
    match tx_in.previous_out with
    | none => none
    | some tx_out_point =>
      match is_in_utxo tx_out_point with
      | none => none
      | some tx_out =>
        sumInsFrom rest is_in_utxo
          (acc.update_add (tx_out.value.with_fixed_hash tx_out_point))

/-- Accumulated input assets of a transaction under a UTXO lookup. -/
def sum_inputs_assets (tx : Transaction)
    (is_in_utxo : OutPoint → Option TxOut) : Option AssetValues :=
  sumInsFrom tx.inputs is_in_utxo AssetValues.default

/-- Accumulated output assets of a transaction. -/
def sum_outputs_assets (tx_outs : List TxOut) : AssetValues :=
  tx_outs.foldl (fun acc o => acc.update_add o.value) AssetValues.default

/-! ## The compact transaction hash codec (primitives/transaction.rs) -/

/-- `TX_HASH_LENGTH`: the 32-character wire length of a transaction hash. -/
def TX_HASH_LENGTH : Nat := 32

/-- `TX_HASH_LENGTH_BYTES = TX_HASH_LENGTH / 2`: 16 bytes of storage. -/
def TX_HASH_LENGTH_BYTES : Nat := TX_HASH_LENGTH / 2

/-- `TX_PREPEND`: the ASCII prefix character of a transaction hash. -/
def TX_PREPEND : Char := 'g'

/-- The error type of the transaction hash codec. -/
inductive TxHashError where
  | BadByteCount (size : Nat)
  | BadZeroBits
  | InvalidStringLength (input : String)
  | InvalidPrefix (input : String)
  | InvalidHexData (input : String)
deriving DecidableEq

/-- The compact transaction hash: 16 bytes whose final low nibble is
zero (bytes are `Nat` values below 256). -/
structure TxHash where
  bytes : List Nat
deriving DecidableEq

/-- `TxHash::from_slice`: fails with `BadByteCount` unless the slice holds
exactly `TX_HASH_LENGTH_BYTES` bytes and with `BadZeroBits` unless the four
least significant bits (`& 0xF`, i.e. `% 16`) of the last byte are zero. -/
def TxHash.from_slice (slice : List Nat) : Except TxHashError TxHash :=
  if slice.length ≠ TX_HASH_LENGTH_BYTES then
    .error (.BadByteCount slice.length)
  else if (slice.getD (TX_HASH_LENGTH_BYTES - 1) 0) % 16 ≠ 0 then
    .error .BadZeroBits
  else
    .ok ⟨slice⟩

/-- The lowercase hexadecimal digit character for a nibble. -/
def hexDigitChar (n : Nat) : Char :=
  if n < 10 then Char.ofNat (48 + n) else Char.ofNat (87 + n)

/-- The two lowercase hexadecimal characters of one byte. -/
def byteToHex (b : Nat) : List Char :=
  [hexDigitChar (b / 16), hexDigitChar (b % 16)]

/-- Hex-encodes a byte slice (`hex::encode_to_slice`). -/
def hexEncode (bytes : List Nat) : List Char :=
  bytes.flatMap byteToHex

/-- The value of a hexadecimal digit character, `none` for a non-digit
(`hex::decode` accepts both cases; only lowercase output is produced). -/
def hexDigitVal (c : Char) : Option Nat :=
  if 48 ≤ c.toNat ∧ c.toNat ≤ 57 then some (c.toNat - 48)
  else if 97 ≤ c.toNat ∧ c.toNat ≤ 102 then some (c.toNat - 87)
  else if 65 ≤ c.toNat ∧ c.toNat ≤ 70 then some (c.toNat - 55)
  else none

/-- Hex-decodes a character sequence pairwise into bytes
(`hex::decode_to_slice`); fails on an odd length or a non-hex character. -/
def hexDecodePairs : List Char → Option (List Nat)
  | [] => some []
  | c1 :: c2 :: rest =>
    match hexDigitVal c1, hexDigitVal c2, hexDecodePairs rest with
    | some d1, some d2, some bs => some ((d1 * 16 + d2) :: bs)
    | _, _, _ => none
  | [_] => none

/-- The `Display` implementation of `TxHash`: a 33-character buffer holding
`TX_PREPEND` followed by the 32 hex characters of the 16 bytes, of which
only the first `TX_HASH_LENGTH` characters are emitted — dropping the
trailing zero nibble. -/
def TxHash.display (h : TxHash) : String :=
  ⟨(TX_PREPEND :: hexEncode h.bytes).take TX_HASH_LENGTH⟩

/-- The `FromStr` implementation of `TxHash`: verify the 32-character
length, verify the `TX_PREPEND` prefix, strip it, pad with a trailing `'0'`
character so that the hex string has even length, hex-decode, and finish
through `from_slice`. -/
def TxHash.from_str (input : String) : Except TxHashError TxHash :=
  if input.length ≠ TX_HASH_LENGTH then
    .error (.InvalidStringLength input)
  else if input.data.headD ' ' ≠ TX_PREPEND then
    .error (.InvalidPrefix input)
  else
    match hexDecodePairs (input.data.drop 1 ++ ['0']) with
    | none => .error (.InvalidHexData input)
    | some bytes => TxHash.from_slice bytes

/-- Whether a character is a lowercase hexadecimal digit. -/
def isLowerHexDigit (c : Char) : Bool :=
  (48 ≤ c.toNat ∧ c.toNat ≤ 57) ∨ (97 ≤ c.toNat ∧ c.toNat ≤ 102)

/-! ## Concrete fixtures used by witnesses and counterexamples -/

/-- A 32-character address string, the length `address_has_valid_length`
and the current address scheme produce. -/
def addr32 : String := "aaaaaaaaaaaaaaaaaaaaaaaaaaaaaaaa"

/-- A trivial instantiation of the external primitives, used to evaluate
the engine at concrete inputs. -/
def trivCrypto : Crypto where
  sha3_256_hex := fun s => s
  verify_detached := fun _ _ _ => true
  construct_address_for := fun _ _ => addr32
  construct_p2sh_address := fun _ => ""
  construct_tx_in_signable_hash := fun _ _ => "x"

/-- An instantiation of the external primitives whose signature check
accepts exactly the signature token `1` under the public key token `1`. -/
def dupSigCrypto : Crypto where
  sha3_256_hex := fun s => s
  verify_detached := fun sig _ pk => sig == 1 && pk == 1
  construct_address_for := fun _ _ => addr32
  construct_p2sh_address := fun _ => ""
  construct_tx_in_signable_hash := fun _ _ => "x"

/-- A script whose execution succeeds on every opcode and leaves the main
stack empty. -/
def dropScript : Script := ⟨[.Op .OP_1, .Op .OP_DROP]⟩

/-- A script applying `OP_CAT` to two pushed byte strings. -/
def catScript : Script := ⟨[.Bytes "a", .Bytes "b", .Op .OP_CAT]⟩

/-- A script consisting of `MAX_STACK_SIZE + 1` data pushes. -/
def bigPushScript : Script := ⟨List.replicate (MAX_STACK_SIZE + 1) (.Num 1)⟩

/-- A script of exactly `MAX_SCRIPT_SIZE` encoded bytes. -/
def script10000 : Script := ⟨[.Bytes ⟨List.replicate MAX_SCRIPT_SIZE 'a'⟩]⟩

/-- A script of `MAX_SCRIPT_SIZE + 1` encoded bytes. -/
def script10001 : Script := ⟨[.Bytes ⟨List.replicate (MAX_SCRIPT_SIZE + 1) 'a'⟩]⟩

/-- A transaction with a single create-style input (`previous_out = None`)
and no outputs. -/
def noPrevTx : Transaction :=
  { inputs := [{ previous_out := none, script_signature := ⟨[]⟩ }]
    outputs := [], version := 0, fees := [], druid_info := none }

/-- The outpoint referenced by the concrete valid transaction below. -/
def wOutpoint : OutPoint := ⟨"t", 0⟩

/-- The unspent output referenced by the concrete valid transaction. -/
def wLockedOut : TxOut :=
  { value := .Token 5, locktime := 0, script_public_key := some addr32 }

/-- A canonical P2PKH unlocking script matching `wLockedOut` under
`trivCrypto`. -/
def wP2pkhScript : Script :=
  ⟨[.Bytes "x", .Signature 0, .PubKey 0, .Op .OP_DUP, .Op .OP_HASH256,
    .PubKeyHash addr32, .Op .OP_EQUALVERIFY, .Op .OP_CHECKSIG]⟩

/-- A concrete transaction that validates under `trivCrypto`. -/
def wTx : Transaction :=
  { inputs := [{ previous_out := some wOutpoint, script_signature := wP2pkhScript }]
    outputs := [wLockedOut], version := 0, fees := [], druid_info := none }

/-- The UTXO lookup holding exactly `wOutpoint ↦ wLockedOut`. -/
def wUtxo : OutPoint → Option TxOut :=
  fun op => if op = wOutpoint then some wLockedOut else none

/-! ## Theorems -/

/-- C10: Executing `OP_CREATE` inside a script is a no-op for the
interpreter — the dispatch arm leaves both stacks unchanged and continues —
while other non-dispatched opcodes (`OP_CAT`, `OP_MUL` among them) hit the
unknown-operation arm and abort execution. -/
theorem op_create_is_noop (C : Crypto) (rest : List StackEntry)
    (stack alt : List StackEntry) :
    execEntry C (.Op .OP_CREATE) stack alt = .done stack alt
    ∧ execEntry C (.Op .OP_CAT) stack alt = .fail
    ∧ execEntry C (.Op .OP_MUL) stack alt = .fail
    ∧ runEntries C (.Op .OP_CREATE :: rest) stack alt =
        (if ¬ is_valid_stack stack alt then .fail else runEntries C rest stack alt) := by
  refine ⟨rfl, rfl, rfl, ?_⟩
  by_cases h : is_valid_stack stack alt <;>
    simp [runEntries, execEntry, execOpcode, h]

/-- C5: the crypto opcode handlers do not return `false` on a malformed
stack — they PANIC: `op_hash256` on an empty stack, `op_checksig` on a
stack that does not hold `[bytes, signature, pubkey]`, and `op_multisig` on
an empty stack all abort the program. -/
theorem crypto_ops_panic_on_malformed_stack :
    op_hash256 trivCrypto [] none = .panic
    ∧ op_checksig trivCrypto [.Num 0] = .panic
    ∧ op_checksig trivCrypto [] = .panic
    ∧ op_multisig trivCrypto [] = .panic :=
  ⟨rfl, rfl, rfl, rfl⟩

/-- C3: a transaction containing an input whose `previous_out` is `None`
makes `tx_is_valid` PANIC (`unwrap()` of `None`) instead of returning
`false`. -/
theorem tx_is_valid_panics_on_missing_previous_out :
    tx_is_valid trivCrypto noPrevTx (fun _ => none) = none := rfl

/-- C1 (counterexample): the script `[OP_1, OP_DROP]` executes successfully,
leaves the main stack EMPTY, and `interpret_script` returns TRUE — the
final condition `last() != Some(Num(0))` holds vacuously for an empty
stack. -/
theorem interpret_script_empty_stack_true :
    runEntries trivCrypto dropScript.stack [] [] = .done [] []
    ∧ interpret_script trivCrypto dropScript = some true :=
  ⟨rfl, rfl⟩

/-- C1 (amended): for a script passing the pre-flight whose entries all
execute successfully, `interpret_script` returns true if and only if the
top entry of the final main stack — IF ANY — is not `Num(0)`; a script
leaving the stack empty therefore evaluates to true, as does the empty
script. -/
theorem interpret_script_top_entry_condition (C : Crypto) (s : Script)
    (st alt : List StackEntry)
    (h1 : is_valid_script s = true)
    (h2 : runEntries C s.stack [] [] = .done st alt) :
    (interpret_script C s = some true ↔ st.head? ≠ some (StackEntry.Num ZERO))
    ∧ interpret_script C ⟨[]⟩ = some true := by
  constructor
  · simp [interpret_script, h1, h2]
  · rfl

/-- C1 (witness): the amended success condition instantiated at the
concrete script `[OP_1, OP_DROP]`. -/
theorem interpret_script_top_entry_condition_witness :
    (interpret_script trivCrypto dropScript = some true ↔
       ([] : List StackEntry).head? ≠ some (StackEntry.Num ZERO))
    ∧ interpret_script trivCrypto ⟨[]⟩ = some true :=
  interpret_script_top_entry_condition trivCrypto dropScript [] []
    (by decide) (by decide)

/-- For every stack pair, the dispatch treats `OP_CAT` as an unknown
operation. -/
theorem execEntry_cat_fails (C : Crypto) (stack alt : List StackEntry) :
    execEntry C (.Op .OP_CAT) stack alt = .fail := rfl

/-- A run whose remaining entries contain `OP_CAT` never completes: it ends
in failure or in a panic raised by an earlier entry. -/
theorem runEntries_contains_cat (C : Crypto) :
    ∀ (entries : List StackEntry) (stack alt : List StackEntry),
      StackEntry.Op OpCodes.OP_CAT ∈ entries →
      runEntries C entries stack alt = .fail
        ∨ runEntries C entries stack alt = .panic := by
  intro entries
  induction entries with
  | nil => intro stack alt h; simp at h
  | cons e rest ih =>
    intro stack alt h
    by_cases hs : is_valid_stack stack alt
    · rcases List.mem_cons.mp h with he | hrest
      · subst he
        left
        simp [runEntries, hs, execEntry_cat_fails]
      · cases hex : execEntry C e stack alt with
        | panic => right; simp [runEntries, hs, hex]
        | fail => left; simp [runEntries, hs, hex]
        | done s a =>
          have := ih s a hrest
          simpa [runEntries, hs, hex] using this
    · left
      simp [runEntries, hs]

/-- C4 (amended): `interpret_script` does not dispatch `OP_CAT` — a script
containing it never evaluates to true, the opcode being treated as an
unknown operation — while the standalone `op_cat` handler (unreachable from
`interpret_script`) replaces two byte strings by their concatenation when
the combined length is at most 520 bytes and fails beyond that. -/
theorem op_cat_not_dispatched :
    (∀ (C : Crypto) (s : Script), StackEntry.Op OpCodes.OP_CAT ∈ s.stack →
        interpret_script C s ≠ some true)
    ∧ (∀ (s1 s2 : String) (rest : List StackEntry),
        op_cat (.Bytes s2 :: .Bytes s1 :: rest) =
          if s1.length + s2.length > MAX_SCRIPT_ELEMENT_SIZE then .fail
          else .ok (.Bytes (s1 ++ s2) :: rest)) := by
  constructor
  · intro C s hmem
    unfold interpret_script
    by_cases hv : is_valid_script s
    · rcases runEntries_contains_cat C s.stack [] [] hmem with h | h <;> simp [hv, h]
    · simp [hv]
  · intro s1 s2 rest
    rfl

/-- C4 (counterexample): the script `[Bytes "a", Bytes "b", OP_CAT]` fails
under `interpret_script` even though the `op_cat` handler applied to the
same two byte strings succeeds with their concatenation. -/
theorem op_cat_counterexample :
    interpret_script trivCrypto catScript = some false
    ∧ op_cat [.Bytes "b", .Bytes "a"] = .ok [.Bytes "ab"] := by
  constructor
  · rfl
  · decide

/-- C4 (witness): the amended statement instantiated at a concrete script
containing `OP_CAT` and at concrete byte strings. -/
theorem op_cat_not_dispatched_witness :
    interpret_script trivCrypto ⟨[.Op .OP_CAT]⟩ ≠ some true
    ∧ op_cat [.Bytes "y", .Bytes "x"] =
        if ("x".length + "y".length > MAX_SCRIPT_ELEMENT_SIZE : Prop)
        then .fail else .ok [.Bytes "xy"] :=
  ⟨op_cat_not_dispatched.1 trivCrypto ⟨[.Op .OP_CAT]⟩ (by decide),
   op_cat_not_dispatched.2 "x" "y" []⟩

/-- Unfolding equation for the interpreter loop on a cons cell, with the
stack-size condition exposed as an arithmetic comparison. -/
theorem runEntries_cons (C : Crypto) (e : StackEntry)
    (rest stack alt : List StackEntry) :
    runEntries C (e :: rest) stack alt =
      if stack.length + alt.length > MAX_STACK_SIZE then .fail
      else
        match execEntry C e stack alt with
        | .panic => .panic
        | .fail => .fail
        | .done s a => runEntries C rest s a := by
  by_cases h : stack.length + alt.length > MAX_STACK_SIZE
  · rw [if_pos h]; simp [runEntries, is_valid_stack, h]
  · rw [if_neg h]; simp [runEntries, is_valid_stack, h]

/-- Running `k` number pushes from stacks whose combined size leaves room
up to `MAX_STACK_SIZE + 1` succeeds, because the size check only rejects a
combined size STRICTLY above `MAX_STACK_SIZE` before each entry. -/
theorem runEntries_push_replicate (C : Crypto) :
    ∀ (k : Nat) (stack alt : List StackEntry),
      stack.length + alt.length + k ≤ MAX_STACK_SIZE + 1 →
      runEntries C (List.replicate k (.Num 1)) stack alt =
        .done (List.replicate k (.Num 1) ++ stack) alt := by
  intro k
  induction k with
  | zero => intro stack alt _; simp [runEntries]
  | succ n ih =>
    intro stack alt hle
    rw [List.replicate_succ, runEntries_cons]
    rw [if_neg (by simp only [MAX_STACK_SIZE] at *; omega)]
    have hstep :
        execEntry C (.Num 1) stack alt = .done (.Num 1 :: stack) alt := rfl
    have hrec := ih (.Num 1 :: stack) alt
      (by simp only [List.length_cons, MAX_STACK_SIZE] at *; omega)
    simp only [hstep, hrec]
    rw [List.append_cons, ← List.replicate_succ' n (StackEntry.Num 1)]
    simp [List.replicate_succ]

/-- C7 (amended): the stack-size check is strict and runs BEFORE each
entry: an entry is rejected exactly when the combined stack size already
EXCEEDS `MAX_STACK_SIZE` (1,000), so a push arriving when the size is
exactly 1,000 is still accepted and the combined size can reach 1,001. -/
theorem stack_size_check_is_strict :
    (∀ (C : Crypto) (e : StackEntry) (rest stack alt : List StackEntry),
        stack.length + alt.length > MAX_STACK_SIZE →
        runEntries C (e :: rest) stack alt = .fail)
    ∧ (∀ (C : Crypto) (k : Nat), k ≤ MAX_STACK_SIZE + 1 →
        runEntries C (List.replicate k (.Num 1)) [] [] =
          .done (List.replicate k (.Num 1)) []) := by
  constructor
  · intro C e rest stack alt hgt
    have hs : is_valid_stack stack alt = false := by
      simp [is_valid_stack, hgt]
    simp [runEntries, hs]
  · intro C k hk
    have := runEntries_push_replicate C k [] [] (by simpa using hk)
    simpa using this

/-- Encoded length accumulated over a script of `k` number pushes. -/
theorem foldl_entry_len_replicate :
    ∀ (k acc : Nat),
      (List.replicate k (StackEntry.Num 1)).foldl (fun a e => a + entry_len e) acc
        = acc + NUM_ENTRY_LEN * k := by
  intro k
  induction k with
  | zero => intro acc; simp
  | succ n ih =>
    intro acc
    rw [List.replicate_succ, List.foldl_cons, ih]
    show acc + 8 + NUM_ENTRY_LEN * n = acc + NUM_ENTRY_LEN * (n + 1)
    simp [NUM_ENTRY_LEN]
    ring

/-- A script of number pushes contains no opcodes. -/
theorem countP_ops_replicate_num :
    ∀ (k : Nat),
      (List.replicate k (StackEntry.Num 1)).countP
        (fun e => match e with | .Op _ => true | _ => false) = 0 := by
  intro k
  induction k with
  | zero => simp
  | succ n ih => simp [List.replicate_succ, List.countP_cons, ih]

/-- The `MAX_STACK_SIZE + 1` push script passes the pre-flight check. -/
theorem is_valid_script_bigPushScript : is_valid_script bigPushScript = true := by
  have hlen : script_len bigPushScript = NUM_ENTRY_LEN * (MAX_STACK_SIZE + 1) := by
    have h := foldl_entry_len_replicate (MAX_STACK_SIZE + 1) 0
    simp only [Nat.zero_add] at h
    simpa [script_len, bigPushScript] using h
  have hops : script_ops_count bigPushScript = 0 := by
    simp [script_ops_count, bigPushScript, countP_ops_replicate_num]
  rw [is_valid_script, hlen, hops]
  norm_num [MAX_SCRIPT_SIZE, MAX_OPS_PER_SCRIPT, MAX_STACK_SIZE, NUM_ENTRY_LEN]

/-- C7 (counterexample): a script of `MAX_STACK_SIZE + 1` data pushes
executes to completion with a final main stack of 1,001 entries — the push
arriving when the stacks hold exactly 1,000 entries is NOT rejected — and
the whole script interprets to true. -/
theorem stack_limit_counterexample :
    runEntries trivCrypto bigPushScript.stack [] [] =
      .done (List.replicate (MAX_STACK_SIZE + 1) (.Num 1)) []
    ∧ (List.replicate (MAX_STACK_SIZE + 1) (StackEntry.Num 1)).length > MAX_STACK_SIZE
    ∧ interpret_script trivCrypto bigPushScript = some true := by
  have hrun := runEntries_push_replicate trivCrypto (MAX_STACK_SIZE + 1) [] []
    (by simp)
  simp only [List.append_nil] at hrun
  refine ⟨hrun, by simp, ?_⟩
  rw [interpret_script, if_neg (by simp [is_valid_script_bigPushScript])]
  rw [show bigPushScript.stack =
        List.replicate (MAX_STACK_SIZE + 1) (StackEntry.Num 1) from rfl]
  rw [hrun]
  rw [List.replicate_succ]
  simp [ZERO]

/-- C7 (witness): the amended size-check behaviour at concrete inputs — an
entry arriving with 1,001 entries already on the stacks is rejected, while
1,001 consecutive pushes starting from empty stacks all succeed. -/
theorem stack_size_check_is_strict_witness :
    runEntries trivCrypto [.Op .OP_NOP]
        (List.replicate (MAX_STACK_SIZE + 1) (.Num 1)) [] = .fail
    ∧ runEntries trivCrypto (List.replicate (MAX_STACK_SIZE + 1) (.Num 1)) [] [] =
        .done (List.replicate (MAX_STACK_SIZE + 1) (.Num 1)) [] :=
  ⟨stack_size_check_is_strict.1 trivCrypto (.Op .OP_NOP) []
      (List.replicate (MAX_STACK_SIZE + 1) (.Num 1)) [] (by simp),
   stack_size_check_is_strict.2 trivCrypto (MAX_STACK_SIZE + 1) (by simp)⟩

/-- Encoded length of a script holding one byte-string entry. -/
theorem script_len_single_bytes (l : List Char) :
    script_len ⟨[.Bytes ⟨l⟩]⟩ = l.length := by
  show 0 + entry_len (.Bytes ⟨l⟩) = l.length
  show 0 + String.length ⟨l⟩ = l.length
  simp [String.length]

/-- C8: the pre-flight check rejects a script exactly when its encoded
size (opcode 1 byte, signature 64, public key 32, bytes/pubkeyhash their
string length, number 8 bytes) exceeds `MAX_SCRIPT_SIZE` (10,000) or its
opcode count exceeds `MAX_OPS_PER_SCRIPT` (201); a rejected script makes
`interpret_script` return false before execution; a script of exactly
10,000 encoded bytes passes and one of 10,001 bytes is rejected. -/
theorem preflight_rejects_iff_limits :
    (∀ (s : Script), is_valid_script s = false ↔
        script_len s > MAX_SCRIPT_SIZE ∨ script_ops_count s > MAX_OPS_PER_SCRIPT)
    ∧ (∀ (C : Crypto) (s : Script), is_valid_script s = false →
        interpret_script C s = some false)
    ∧ is_valid_script script10000 = true
    ∧ is_valid_script script10001 = false := by
  refine ⟨?_, ?_, ?_, ?_⟩
  · intro s
    by_cases h1 : script_len s > MAX_SCRIPT_SIZE <;>
      by_cases h2 : script_ops_count s > MAX_OPS_PER_SCRIPT <;>
        simp [is_valid_script, h1, h2]
  · intro C s h
    simp [interpret_script, h]
  · rw [is_valid_script, script10000, script_len_single_bytes]
    norm_num [MAX_SCRIPT_SIZE, MAX_OPS_PER_SCRIPT, script_ops_count,
      List.countP_cons]
  · rw [is_valid_script, script10001, script_len_single_bytes]
    norm_num [MAX_SCRIPT_SIZE]

/-- C8 (witness): the rejected 10,001-byte script makes the interpreter
return false. -/
theorem preflight_rejects_iff_limits_witness :
    interpret_script trivCrypto script10001 = some false :=
  preflight_rejects_iff_limits.2.1 trivCrypto script10001
    preflight_rejects_iff_limits.2.2.2

/-- The multisig counting loop counts, on top of its accumulator, the
number of signature list entries (with multiplicity) that verify against
at least one public key. -/
theorem multisigMatches_eq_countP (C : Crypto) (d : String) (pks : List Nat) :
    ∀ (sigs : List Nat) (c : Nat),
      multisigMatches C d pks sigs c =
        c + sigs.countP (fun sig => pks.any (fun pk => C.verify_detached sig d pk)) := by
  intro sigs
  induction sigs with
  | nil => intro c; simp [multisigMatches]
  | cons s rest ih =>
    intro c
    by_cases h : pks.any (fun pk => C.verify_detached s d pk)
    · simp [multisigMatches, h, ih, List.countP_cons]
      omega
    · simp [multisigMatches, h, ih, List.countP_cons]

/-- C6 (amended): for a threshold within the number of public keys, the
multisig check succeeds exactly when the number of signature list ENTRIES
(counting duplicated signatures once per occurrence) that verify against
some public key is at least `m`; each entry is matched against the public
keys in order and counted for at most one of them. -/
theorem match_on_multisig_counts_occurrences (C : Crypto) (check_data : String)
    (signatures pub_keys : List Nat) (m : Nat) (_hmn : m ≤ pub_keys.length) :
    match_on_multisig_to_pubkey C check_data signatures pub_keys m = true ↔
      m ≤ signatures.countP
            (fun sig => pub_keys.any
              (fun pk => C.verify_detached sig check_data pk)) := by
  rw [match_on_multisig_to_pubkey, multisigMatches_eq_countP]
  simp

/-- C6 (witness): the amended characterisation instantiated at the
duplicated-signature example. -/
theorem match_on_multisig_counts_occurrences_witness :
    match_on_multisig_to_pubkey dupSigCrypto "" [1, 1] [1, 2] 2 = true ↔
      2 ≤ ([1, 1] : List Nat).countP
            (fun sig => ([1, 2] : List Nat).any
              (fun pk => dupSigCrypto.verify_detached sig "" pk)) :=
  match_on_multisig_counts_occurrences dupSigCrypto "" [1, 1] [1, 2] 2 (by decide)

/-- C6 (counterexample): with public keys `[1, 2]` and the SAME signature
`1` listed twice, the multisig check with threshold `m = 2 ≤ n = 2`
succeeds although only ONE distinct signature verifies against some public
key — the check counts occurrences, not distinct signatures. -/
theorem multisig_distinct_counterexample :
    (2 : Nat) ≤ ([1, 2] : List Nat).length
    ∧ match_on_multisig_to_pubkey dupSigCrypto "" [1, 1] [1, 2] 2 = true
    ∧ ¬ (2 ≤ (([1, 1] : List Nat).dedup.countP
          (fun sig => ([1, 2] : List Nat).any
            (fun pk => dupSigCrypto.verify_detached sig "" pk)))) := by
  refine ⟨by decide, by decide, ?_⟩
  decide

/-- The accumulator of the per-input validation loop of `tx_is_valid`,
when the loop completes successfully, is exactly the plain input-asset
accumulation. -/
theorem txInsLoop_sumInsFrom (C : Crypto) :
    ∀ (ins : List TxIn) (is_in_utxo : OutPoint → Option TxOut)
      (acc a : AssetValues),
      txInsLoop C ins is_in_utxo acc = some (some a) →
      sumInsFrom ins is_in_utxo acc = some a := by
  intro ins
  induction ins with
  | nil =>
    intro u acc a h
    simp [txInsLoop] at h
    simp [sumInsFrom, h]
  | cons tx_in rest ih =>
    intro u acc a h
    rw [txInsLoop] at h
    rw [sumInsFrom]
    cases hprev : tx_in.previous_out with
    | none =>
      simp only [hprev] at h
      exact absurd h (by simp)
    | some op =>
      simp only [hprev] at h ⊢
      cases hutxo : u op with
      | none =>
        simp only [hutxo] at h
        exact absurd h (by simp)
      | some tx_out =>
        simp only [hutxo] at h ⊢
        cases hpk : tx_out.script_public_key with
        | none =>
          simp only [hpk] at h
          exact absurd h (by simp)
        | some pk =>
          simp only [hpk] at h
          cases hp2pkh : tx_has_valid_p2pkh_sig C tx_in.script_signature
              (C.construct_tx_in_signable_hash op.t_hash op.n) pk with
          | none =>
            simp only [hp2pkh] at h
            exact absurd h (by simp)
          | some pok =>
            simp only [hp2pkh] at h
            by_cases hpok : pok = true
            · rw [if_pos hpok] at h
              exact ih u _ a h
            · rw [if_neg hpok] at h
              cases hp2sh : tx_has_valid_p2sh_script C tx_in.script_signature pk with
              | none =>
                simp only [hp2sh] at h
                exact absurd h (by simp)
              | some sok =>
                simp only [hp2sh] at h
                by_cases hsok : sok = true
                · rw [if_pos hsok] at h
                  exact ih u _ a h
                · rw [if_neg hsok] at h
                  exact absurd h (by simp)

/-- C2: a transaction accepted by `tx_is_valid` has its accumulated input
assets (tokens summed into one counter, items summed per genesis hash)
exactly equal — per asset class and per item identity — to its accumulated
output assets. -/
theorem tx_is_valid_balances_assets (C : Crypto) (tx : Transaction)
    (is_in_utxo : OutPoint → Option TxOut)
    (h : tx_is_valid C tx is_in_utxo = some true) :
    ∃ ins, sum_inputs_assets tx is_in_utxo = some ins
      ∧ (sum_outputs_assets tx.outputs).is_equal ins = true := by
  rw [tx_is_valid] at h
  by_cases hpf : tx.outputs.any (fun out =>
      out.value.is_receipt
        && (out.value.get_drs_tx_hash.isNone || out.value.get_metadata.isSome))
  · rw [if_pos hpf] at h
    exact absurd h (by simp)
  · rw [if_neg hpf] at h
    cases hloop : txInsLoop C tx.inputs is_in_utxo AssetValues.default with
    | none => rw [hloop] at h; exact absurd h (by simp)
    | some inner =>
      rw [hloop] at h
      cases inner with
      | none => exact absurd h (by simp)
      | some spent =>
        simp only [Option.some.injEq] at h
        rw [tx_outs_are_valid] at h
        by_cases haddr : tx.outputs.all
            (fun o => o.script_public_key.all address_has_valid_length)
        · rw [if_pos haddr] at h
          exact ⟨spent, txInsLoop_sumInsFrom C tx.inputs is_in_utxo
            AssetValues.default spent hloop, h⟩
        · rw [if_neg haddr] at h
          exact absurd h (by simp)

/-- C2 (witness): the balance property applied to a concrete valid
transaction spending `Token(5)` into a single `Token(5)` output. -/
theorem tx_is_valid_balances_assets_witness :
    ∃ ins, sum_inputs_assets wTx wUtxo = some ins
      ∧ (sum_outputs_assets wTx.outputs).is_equal ins = true :=
  tx_is_valid_balances_assets trivCrypto wTx wUtxo (by decide)

/-- Hex decoding inverts the hex digit encoding on nibbles. -/
theorem hexDigitVal_hexDigitChar :
    ∀ d < 16, hexDigitVal (hexDigitChar d) = some d := by decide

/-- The hex digit characters are lowercase hexadecimal digits. -/
theorem isLowerHexDigit_hexDigitChar :
    ∀ d < 16, isLowerHexDigit (hexDigitChar d) = true := by decide

/-- A hex encoding has two characters per byte. -/
theorem hexEncode_length (l : List Nat) : (hexEncode l).length = 2 * l.length := by
  induction l with
  | nil => simp [hexEncode]
  | cons b rest ih => simp [hexEncode, byteToHex] at ih ⊢; omega

/-- Pairwise hex decoding inverts hex encoding on byte lists. -/
theorem hexDecode_hexEncode :
    ∀ (bs : List Nat), (∀ x ∈ bs, x < 256) →
      hexDecodePairs (hexEncode bs) = some bs := by
  intro bs
  induction bs with
  | nil => intro _; simp [hexEncode, hexDecodePairs]
  | cons b rest ih =>
    intro hb
    have hb256 : b < 256 := hb b (by simp)
    have hrest := ih (fun x hx => hb x (by simp [hx]))
    have h1 : hexDigitVal (hexDigitChar (b / 16)) = some (b / 16) :=
      hexDigitVal_hexDigitChar (b / 16) (Nat.div_lt_of_lt_mul (by omega))
    have h2 : hexDigitVal (hexDigitChar (b % 16)) = some (b % 16) :=
      hexDigitVal_hexDigitChar (b % 16) (Nat.mod_lt _ (by norm_num))
    have henc : hexEncode (b :: rest) = byteToHex b ++ hexEncode rest := by
      simp [hexEncode]
    rw [henc]
    show hexDecodePairs
        (hexDigitChar (b / 16) :: hexDigitChar (b % 16) :: hexEncode rest)
      = some (b :: rest)
    rw [hexDecodePairs]
    simp [h1, h2, hrest]
    omega

/-- Every character of the hex encoding of a byte list is a lowercase
hexadecimal digit. -/
theorem isLowerHexDigit_hexEncode :
    ∀ (bs : List Nat), (∀ x ∈ bs, x < 256) →
      ∀ c ∈ hexEncode bs, isLowerHexDigit c = true := by
  intro bs
  induction bs with
  | nil => intro _ c hc; simp [hexEncode] at hc
  | cons b rest ih =>
    intro hb c hc
    have hb256 : b < 256 := hb b (by simp)
    have hsplit : hexEncode (b :: rest) = byteToHex b ++ hexEncode rest := by
      simp [hexEncode]
    rw [hsplit] at hc
    rcases List.mem_append.mp hc with h | h
    · simp [byteToHex] at h
      rcases h with h | h <;> subst h
      · exact isLowerHexDigit_hexDigitChar _ (Nat.div_lt_of_lt_mul (by omega))
      · exact isLowerHexDigit_hexDigitChar _ (Nat.mod_lt _ (by norm_num))
    · exact ih (fun x hx => hb x (by simp [hx])) c h

/-- The byte-form/string-form round trip of a valid transaction hash:
`from_slice` accepts, the display has 32 characters starting with the
prefix, and parsing the display recovers the identical hash. -/
theorem tx_hash_display_roundtrip (b : List Nat)
    (hlen : b.length = TX_HASH_LENGTH_BYTES)
    (hbytes : ∀ x ∈ b, x < 256)
    (hnib : b.getD (TX_HASH_LENGTH_BYTES - 1) 0 % 16 = 0) :
    TxHash.from_slice b = .ok ⟨b⟩
    ∧ (TxHash.display ⟨b⟩).length = TX_HASH_LENGTH
    ∧ (TxHash.display ⟨b⟩).data.headD ' ' = TX_PREPEND
    ∧ ((TxHash.display ⟨b⟩).data.drop 1).length = TX_HASH_LENGTH - 1
    ∧ TxHash.from_str (TxHash.display ⟨b⟩) = .ok ⟨b⟩ := by
  have hlen16 : b.length = 16 := hlen
  have hne : b ≠ [] := by intro hn; simp [hn] at hlen16
  have hdecomp : b.dropLast ++ [b.getLast hne] = b := List.dropLast_append_getLast hne
  set front := b.dropLast with hfront
  set lastb := b.getLast hne with hlast
  have hfl : front.length = 15 := by simp [hfront, hlen16]
  have hnib' : lastb % 16 = 0 := by
    have hg : (front ++ [lastb]).getD 15 0 = lastb := by
      rw [List.getD_eq_getElem?_getD, List.getElem?_append_right (by omega), hfl]
      simp
    rw [show (TX_HASH_LENGTH_BYTES - 1) = 15 from rfl] at hnib
    rw [← hdecomp, hg] at hnib
    exact hnib
  have hfrom_slice : TxHash.from_slice b = .ok ⟨b⟩ := by
    rw [TxHash.from_slice, if_neg (by simp [hlen]),
      if_neg (by simp only [ne_eq, hnib]; simp)]
  have hencdec : hexEncode b = hexEncode front ++ [hexDigitChar (lastb / 16), '0'] := by
    conv_lhs => rw [← hdecomp]
    have hsplit : hexEncode (front ++ [lastb]) = hexEncode front ++ byteToHex lastb := by
      simp [hexEncode]
    rw [hsplit, byteToHex, hnib']
    rfl
  have hencflen : (hexEncode front).length = 30 := by
    rw [hexEncode_length, hfl]
  have hdata : (TxHash.display ⟨b⟩).data =
      TX_PREPEND :: (hexEncode front ++ [hexDigitChar (lastb / 16)]) := by
    show (TX_PREPEND :: hexEncode b).take TX_HASH_LENGTH =
      TX_PREPEND :: (hexEncode front ++ [hexDigitChar (lastb / 16)])
    rw [show TX_HASH_LENGTH = 31 + 1 from rfl, List.take_succ_cons, hencdec,
      List.take_append_eq_append_take, List.take_of_length_le (by omega), hencflen]
    rfl
  have hlen_disp : (TxHash.display ⟨b⟩).length = TX_HASH_LENGTH := by
    show (TxHash.display ⟨b⟩).data.length = TX_HASH_LENGTH
    rw [hdata]
    simp [hencflen]
    rfl
  refine ⟨hfrom_slice, hlen_disp, by rw [hdata]; rfl, ?_, ?_⟩
  · rw [hdata]
    simp [hencflen]
    rfl
  · rw [TxHash.from_str, if_neg (by simp [hlen_disp]), hdata]
    rw [if_neg (by simp)]
    have hback : (TX_PREPEND :: (hexEncode front ++ [hexDigitChar (lastb / 16)])).drop 1
        ++ ['0'] = hexEncode b := by
      rw [hencdec]
      simp
    rw [hback, hexDecode_hexEncode b hbytes]
    show TxHash.from_slice b = Except.ok ⟨b⟩
    exact hfrom_slice

/-- The 31 characters after the display prefix are lowercase hex digits. -/
theorem tx_hash_display_lower_hex (b : List Nat)
    (hbytes : ∀ x ∈ b, x < 256) :
    ∀ c ∈ (TxHash.display ⟨b⟩).data.drop 1, isLowerHexDigit c = true := by
  intro c hc
  have hdrop : (TxHash.display ⟨b⟩).data.drop 1 = (hexEncode b).take 31 := by
    show ((TX_PREPEND :: hexEncode b).take TX_HASH_LENGTH).drop 1 = _
    rw [show TX_HASH_LENGTH = 31 + 1 from rfl, List.take_succ_cons]
    rfl
  rw [hdrop] at hc
  exact isLowerHexDigit_hexEncode b hbytes c (List.mem_of_mem_take hc)

/-- C9: for every 16-byte array whose final nibble is zero, `from_slice`
succeeds, the string form is exactly 32 characters — the prefix `g`
followed by 31 lowercase hex digits — and parsing the string form recovers
the identical hash; `from_slice` fails with `BadByteCount` on any slice
whose length is not 16 and with `BadZeroBits` when the final low nibble is
non-zero. -/
theorem tx_hash_roundtrip_and_errors :
    (∀ (b : List Nat), b.length = TX_HASH_LENGTH_BYTES → (∀ x ∈ b, x < 256) →
       b.getD (TX_HASH_LENGTH_BYTES - 1) 0 % 16 = 0 →
       TxHash.from_slice b = .ok ⟨b⟩
       ∧ (TxHash.display ⟨b⟩).length = TX_HASH_LENGTH
       ∧ (TxHash.display ⟨b⟩).data.headD ' ' = TX_PREPEND
       ∧ ((TxHash.display ⟨b⟩).data.drop 1).length = TX_HASH_LENGTH - 1
       ∧ (∀ c ∈ (TxHash.display ⟨b⟩).data.drop 1, isLowerHexDigit c = true)
       ∧ TxHash.from_str (TxHash.display ⟨b⟩) = .ok ⟨b⟩)
    ∧ (∀ (b : List Nat), b.length ≠ TX_HASH_LENGTH_BYTES →
         TxHash.from_slice b = .error (.BadByteCount b.length))
    ∧ (∀ (b : List Nat), b.length = TX_HASH_LENGTH_BYTES →
         b.getD (TX_HASH_LENGTH_BYTES - 1) 0 % 16 ≠ 0 →
         TxHash.from_slice b = .error .BadZeroBits) := by
  refine ⟨?_, ?_, ?_⟩
  · intro b h1 h2 h3
    obtain ⟨a1, a2, a3, a4, a5⟩ := tx_hash_display_roundtrip b h1 h2 h3
    exact ⟨a1, a2, a3, a4, tx_hash_display_lower_hex b h2, a5⟩
  · intro b h
    rw [TxHash.from_slice, if_pos h]
  · intro b h hn
    rw [TxHash.from_slice, if_neg (by simp [h]),
      if_pos (by simp only [ne_eq, hn]; simp)]

/-- C9 (witness): the codec properties at the all-zero hash, a 1-byte
slice and a slice with a non-zero final nibble. -/
theorem tx_hash_roundtrip_and_errors_witness :
    (TxHash.from_slice (List.replicate 16 0) = .ok ⟨List.replicate 16 0⟩
       ∧ (TxHash.display ⟨List.replicate 16 0⟩).length = TX_HASH_LENGTH
       ∧ (TxHash.display ⟨List.replicate 16 0⟩).data.headD ' ' = TX_PREPEND
       ∧ ((TxHash.display ⟨List.replicate 16 0⟩).data.drop 1).length = TX_HASH_LENGTH - 1
       ∧ (∀ c ∈ (TxHash.display ⟨List.replicate 16 0⟩).data.drop 1,
            isLowerHexDigit c = true)
       ∧ TxHash.from_str (TxHash.display ⟨List.replicate 16 0⟩) =
           .ok ⟨List.replicate 16 0⟩)
    ∧ TxHash.from_slice [0] = .error (.BadByteCount ([0] : List Nat).length)
    ∧ TxHash.from_slice (List.replicate 15 0 ++ [1]) = .error .BadZeroBits :=
  ⟨tx_hash_roundtrip_and_errors.1 (List.replicate 16 0)
      (by decide) (by decide) (by decide),
   tx_hash_roundtrip_and_errors.2.1 [0] (by decide),
   tx_hash_roundtrip_and_errors.2.2 (List.replicate 15 0 ++ [1])
      (by decide) (by decide)⟩

end Blockchain
